import Mathlib

/-!
Shallow embedding of the citation-fetch adapter (`citation_app.py`) of the
citoid-demo repository, together with theorems settling the specification
claims about it.

Modelling conventions:
* Python strings are Lean `String`s; `str.strip()` is `String.trim` and the
  whitespace set is the ASCII one of `Char.isWhitespace`.
* The single outbound HTTP exchange of each fetcher is modelled by an
  explicit upstream outcome: the `requests` call either raises
  `ConnectionError`, raises `Timeout`, raises some other exception (with a
  message), or returns a response.  A response carries the status code, the
  body text, the reason phrase, and the result of `response.json()`
  (`Except.ok` a parsed value, `Except.error` the decode-error message) —
  this oracle field models the JSON parser without re-implementing it.
* `response.raise_for_status()` raises `HTTPError` exactly for status codes
  in [400, 600), per the requests library.
* The result dictionaries are modelled by a structure whose fields are
  `Option`s: a key absent from the returned dict is `none`.
-/

namespace CitoidDemo

/-- JSON values, the possible results of `response.json()`. -/
inductive Json where
  | null
  | bool (b : Bool)
  | num (n : Int)
  | str (s : String)
  | arr (xs : List Json)
  | obj (fields : List (String × Json))

/-- The `data` field of a result dict: a parsed JSON value for JSON formats,
the raw body text for bibtex. -/
inductive DataVal where
  | json (j : Json)
  | text (s : String)

/-- The dictionary returned by either fetcher.  Keys absent from the Python
dict are `none`. -/
structure ResultEnvelope where
  success : Bool
  data : Option DataVal := none
  is_json : Option Bool := none
  format_type : Option String := none
  api_url : Option String := none
  endpoint_type : Option String := none
  error : Option String := none

/-- An HTTP response as seen through the requests library: status code, body
text, reason phrase, and the outcome of `response.json()` (`Except.error`
models the `json.JSONDecodeError` message when the body is not JSON). -/
structure HttpResponse where
  status_code : Nat
  text : String
  reason : String
  jsonBody : Except String Json

/-- The outcome of one `requests.get`/`requests.post` call: the exception it
raised, or the response it returned.  `otherFailure msg` models any exception
outside the three named classes, with `msg = str(e)`. -/
inductive RequestsOutcome where
  | connectionError
  | timeout
  | otherFailure (msg : String)
  | response (r : HttpResponse)

/-- Model of response.raise_for_status(): it raises
`requests.exceptions.HTTPError` exactly for 4xx and 5xx status codes. -/
def raisesForStatus (status : Nat) : Prop :=
  400 ≤ status ∧ status < 600

instance (status : Nat) : Decidable (raisesForStatus status) := by
  unfold raisesForStatus; infer_instance

/-! ## Input classifier (`is_doi_or_identifier`, citation_app.py lines 78–101) -/

/-- Python text.strip(): drop leading and trailing whitespace, as a
character list. -/
def pyStrip (text : String) : List Char :=
  ((text.data.dropWhile Char.isWhitespace).reverse.dropWhile Char.isWhitespace).reverse

/-- Test stripped.startswith(('http://', 'https://')) on an already-stripped
character list. -/
def startsWithHttp (cs : List Char) : Bool :=
  "http://".data.isPrefixOf cs || "https://".data.isPrefixOf cs

/-- The regex `^10\.\d{4,}/[^\s]+$` applied with `re.match` to an
already-stripped string: `10.` then at least four digits, then `/`, then a
non-empty run of non-whitespace characters reaching the end.  The digit run
is maximal (a digit can never match `/`), so no backtracking case is lost. -/
def doiPatternMatch (cs : List Char) : Bool :=
  match cs with
  | '1' :: '0' :: '.' :: rest =>
      let digits := rest.takeWhile Char.isDigit
      let afterDigits := rest.dropWhile Char.isDigit
      decide (4 ≤ digits.length) &&
        (match afterDigits with
         | '/' :: tail => !tail.isEmpty && tail.all (fun c => !c.isWhitespace)
         | _ => false)
  | _ => false

/-- Function is_doi_or_identifier from citation_app.py: `False` means the
input is a URL, `True` means identifier. -/
def is_doi_or_identifier (text : String) : Bool :=
  if startsWithHttp (pyStrip text) then
    false
  else if doiPatternMatch (pyStrip text) then
    true
  else
    !startsWithHttp (pyStrip text)

/-! ## Percent encoding (`urllib.parse.quote(url, safe="")`) -/

/-- The characters `urllib.parse.quote` never escapes (its `ALWAYS_SAFE`
set): ASCII letters, digits, and `_ . - ~`.  With `safe=""` every other
character is percent-encoded. -/
def quoteSafe (c : Char) : Bool :=
  c.isAlphanum || c = '_' || c = '.' || c = '-' || c = '~'

/-- Upper-case hex digit for a value below 16. -/
def hexDigit (n : Nat) : Char :=
  if n < 10 then Char.ofNat ('0'.toNat + n) else Char.ofNat ('A'.toNat + n - 10)

/-- Percent escape (three characters) of one byte. -/
def percentEncodeByte (b : Nat) : List Char :=
  ['%', hexDigit (b / 16), hexDigit (b % 16)]

/-- UTF-8 encoding of one code point, as its list of byte values. -/
def utf8Bytes (n : Nat) : List Nat :=
  if n < 0x80 then [n]
  else if n < 0x800 then [0xC0 + n / 64, 0x80 + n % 64]
  else if n < 0x10000 then [0xE0 + n / 4096, 0x80 + (n / 64) % 64, 0x80 + n % 64]
  else [0xF0 + n / 262144, 0x80 + (n / 4096) % 64, 0x80 + (n / 64) % 64, 0x80 + n % 64]

/-- One character of `quote(url, safe="")`: kept verbatim when always-safe,
otherwise each UTF-8 byte becomes `%XX`. -/
def quoteChar (c : Char) : List Char :=
  if quoteSafe c then [c] else ((utf8Bytes c.toNat).map percentEncodeByte).flatten

/-- Model of urllib.parse.quote(s, safe='') over the character list of the
argument. -/
def pyQuote (s : String) : String :=
  ⟨(s.data.map quoteChar).flatten⟩

/-! ## PathA fetcher (`fetch_citation`, citation_app.py lines 18–75) -/

/-- The request URL built at citation_app.py line 34. -/
def citoidApiUrl (format_type url : String) : String :=
  "https://en.wikipedia.org/api/rest_v1/data/citation/" ++ format_type ++ "/" ++ pyQuote url

/-- Function fetch_citation(url, format_type), given the outcome of its one
`requests.get` call.  Mirrors the try/except structure of lines 29–75. -/
def fetch_citation (url format_type : String) (outcome : RequestsOutcome) : ResultEnvelope :=
  let api_url := citoidApiUrl format_type url
  match outcome with
  | .connectionError =>
      { success := false
        error := some "Connection error. Please check your internet connection." }
  | .timeout =>
      { success := false, error := some "Request timed out. Please try again." }
  | .otherFailure msg =>
      { success := false, error := some ("An unexpected error occurred: " ++ msg) }
  | .response r =>
      if raisesForStatus r.status_code then
        { success := false
          error := some ("HTTP error: " ++ toString r.status_code ++ " - " ++ r.reason) }
      else if format_type = "bibtex" then
        { success := true, data := some (.text r.text), is_json := some false
          format_type := some format_type, api_url := some api_url }
      else
        match r.jsonBody with
        | .ok j =>
            { success := true, data := some (.json j), is_json := some true
              format_type := some format_type, api_url := some api_url }
        | .error msg =>
            { success := false, error := some ("An unexpected error occurred: " ++ msg) }

/-! ## PathB fetcher (`fetch_zotero_citation`, citation_app.py lines 104–175) -/

/-- The configuration visible to one PathB call: the two `st.secrets` lookups
(`none` models the `KeyError`/`FileNotFoundError` raised when the key or the
secrets file is absent) and the two `os.getenv` results. -/
structure ZoteroConfig where
  secretsUrl : Option String := none
  secretsKey : Option String := none
  envUrl : Option String := none
  envKey : Option String := none

/-- Lines 117–123: both values come from `st.secrets` when both lookups
succeed; if either lookup raises, both fall back to the environment
variables. -/
def resolveCreds (cfg : ZoteroConfig) : Option String × Option String :=
  match cfg.secretsUrl, cfg.secretsKey with
  | some u, some k => (some u, some k)
  | _, _ => (cfg.envUrl, cfg.envKey)

/-- Python falsiness of a credential value: absent (`None`) or the empty
string. -/
def credMissing : Option String → Bool
  | none => true
  | some s => s = ""

/-- Model of api_url.rstrip('/'): drop every trailing slash. -/
def rstripSlash (s : String) : String :=
  ⟨(s.data.reverse.dropWhile (fun c => c = '/')).reverse⟩

/-- Lines 131–137: endpoint URL and endpoint type chosen from the
classifier. -/
def zoteroEndpoint (api_url input_text : String) : String × String :=
  if is_doi_or_identifier input_text then
    (rstripSlash api_url ++ "/search", "search")
  else
    (rstripSlash api_url ++ "/web", "web")

/-- The one outbound POST of a PathB call: target URL, `x-api-key` header
value, and raw request body. -/
structure ZoteroRequest where
  endpoint : String
  apiKey : String
  body : String

/-- Lines 146–175 of citation_app.py: the outcome of the single
`requests.post` call mapped through `raise_for_status`, `response.json()`
and the except clauses to the returned dict. -/
def zoteroRespond (endpoint endpoint_type : String) (outcome : RequestsOutcome) :
    ResultEnvelope :=
  match outcome with
  | .connectionError =>
      { success := false
        error := some "Connection error. Please check your internet connection." }
  | .timeout =>
      { success := false, error := some "Request timed out. Please try again." }
  | .otherFailure msg =>
      { success := false, error := some ("An unexpected error occurred: " ++ msg) }
  | .response r =>
      if raisesForStatus r.status_code then
        { success := false
          error := some ("HTTP error: " ++ toString r.status_code ++ " - " ++ r.text) }
      else
        match r.jsonBody with
        | .ok j =>
            { success := true, data := some (.json j)
              endpoint_type := some endpoint_type, api_url := some endpoint }
        | .error msg =>
            { success := false, error := some ("An unexpected error occurred: " ++ msg) }

/-- Function fetch_zotero_citation(input_text), given the configuration and the
behaviour `net` of the network (what the single `requests.post` call to a
given request returns).  Mirrors lines 114–175: resolve credentials, report
missing configuration before any network call, choose the endpoint, issue
the one POST, and map its outcome through `zoteroRespond`. -/
def fetch_zotero_citation (cfg : ZoteroConfig) (input_text : String)
    (net : ZoteroRequest → RequestsOutcome) : ResultEnvelope :=
  let creds := resolveCreds cfg
  if credMissing creds.1 || credMissing creds.2 then
    { success := false
      error := some "Zotero API credentials not configured. Please set credentials in .streamlit/secrets.toml (Cloud) or .env file (local)." }
  else
    let ep := zoteroEndpoint (creds.1.getD "") input_text
    zoteroRespond ep.1 ep.2 (net ⟨ep.1, creds.2.getD "", input_text⟩)

/-! ## Helper lemmas -/

theorem string_data_append (s t : String) : (s ++ t).data = s.data ++ t.data := by
  cases s; cases t; rfl

theorem head_of_string_append (s t : String) (c : Char) (h : s.data.head? = some c) :
    (s ++ t).data.head? = some c := by
  rw [string_data_append]
  cases hs : s.data with
  | nil => rw [hs] at h; cases h
  | cons a l => rw [hs] at h; simpa using h

/-- A message whose first character is not the capital A of the generic
handler's message can never be an instance of the generic message. -/
theorem ne_unexpected_of_head {msg : String} {c : Char}
    (hc : msg.data.head? = some c) (hA : c ≠ 'A') (m : String) :
    msg ≠ "An unexpected error occurred: " ++ m := by
  intro h
  apply hA
  have h2 : msg.data.head? = ("An unexpected error occurred: " ++ m).data.head? := by
    rw [h]
  rw [head_of_string_append _ _ 'A' (by decide), hc] at h2
  exact Option.some.inj h2

theorem char_toNat_lt_codepoints (c : Char) : c.toNat < 1114112 := by
  have h := c.valid
  unfold UInt32.isValidChar Nat.isValidChar at h
  show c.val.toNat < 1114112
  rcases h with h | ⟨h1, h2⟩
  · omega
  · exact h2

theorem utf8Bytes_lt (n : Nat) (hn : n < 1114112) : ∀ b ∈ utf8Bytes n, b < 256 := by
  intro b hb
  unfold utf8Bytes at hb
  split_ifs at hb with h1 h2 h3 <;> simp at hb <;> omega

theorem hexDigit_safe : ∀ n < 16, quoteSafe (hexDigit n) = true := by decide

theorem percentEncodeByte_safe (b : Nat) (hb : b < 256) :
    ∀ c ∈ percentEncodeByte b, quoteSafe c = true ∨ c = '%' := by
  intro c hc
  unfold percentEncodeByte at hc
  simp at hc
  rcases hc with h | h | h
  · right; exact h
  · left; rw [h]; exact hexDigit_safe _ (by omega)
  · left; rw [h]; exact hexDigit_safe _ (by omega)

theorem quoteChar_safe (ch : Char) : ∀ c ∈ quoteChar ch, quoteSafe c = true ∨ c = '%' := by
  intro c hc
  unfold quoteChar at hc
  split_ifs at hc with h
  · simp at hc; subst hc; left; exact h
  · simp only [List.mem_flatten, List.mem_map] at hc
    obtain ⟨l, ⟨b, hb, rfl⟩, hcl⟩ := hc
    exact percentEncodeByte_safe b
      (utf8Bytes_lt _ (char_toNat_lt_codepoints ch) b hb) c hcl

theorem pyQuote_safe (url : String) :
    ∀ c ∈ (pyQuote url).data, quoteSafe c = true ∨ c = '%' := by
  intro c hc
  have h2 : c ∈ (url.data.map quoteChar).flatten := hc
  simp only [List.mem_flatten, List.mem_map] at h2
  obtain ⟨l, ⟨ch, hch, rfl⟩, hcl⟩ := h2
  exact quoteChar_safe ch c hcl

/-- With credentials resolved to non-empty values, a PathB call issues the
one POST to the chosen endpoint with the raw input as body and maps its
outcome through the response handler. -/
theorem fetch_zotero_config_present (cfg : ZoteroConfig) (u k : String)
    (hres : resolveCreds cfg = (some u, some k)) (hu : u ≠ "") (hk : k ≠ "")
    (input_text : String) (net : ZoteroRequest → RequestsOutcome) :
    fetch_zotero_citation cfg input_text net
      = zoteroRespond (zoteroEndpoint u input_text).1 (zoteroEndpoint u input_text).2
          (net ⟨(zoteroEndpoint u input_text).1, k, input_text⟩) := by
  unfold fetch_zotero_citation
  rw [hres]
  simp [credMissing, hu, hk]

/-! ## Claim theorems -/

/-- C1: the classifier returns URL (`false`) exactly when the stripped input
starts with `http://` or `https://`; otherwise a DOI-shaped input is an
identifier (`true`), and so is any other non-URL input; concretely
`10.2307/4486062` is an identifier and `https://arxiv.org/abs/1706.03762` is
a URL. -/
theorem claim_C1_classifier_rule :
    (∀ text : String,
      (is_doi_or_identifier text = false ↔ startsWithHttp (pyStrip text) = true)
      ∧ (startsWithHttp (pyStrip text) = false → doiPatternMatch (pyStrip text) = true →
          is_doi_or_identifier text = true)
      ∧ (startsWithHttp (pyStrip text) = false → is_doi_or_identifier text = true))
    ∧ is_doi_or_identifier "10.2307/4486062" = true
    ∧ is_doi_or_identifier "https://arxiv.org/abs/1706.03762" = false := by
  refine ⟨fun text => ?_, by decide, by decide⟩
  unfold is_doi_or_identifier
  by_cases h : startsWithHttp (pyStrip text) <;> simp [h]

/-- Witness for C1 at concrete inputs: a non-URL, non-DOI string is
classified as identifier. -/
theorem claim_C1_classifier_rule_witness :
    is_doi_or_identifier "some plain words" = true :=
  (claim_C1_classifier_rule.1 "some plain words").2.2 (by decide)

/-- C10: the DOI-regex branch never changes the classifier's answer — for
every input the classifier equals the bare prefix test on the stripped
input; in particular the empty string and arbitrary non-DOI, non-URL strings
classify as identifier. -/
theorem claim_C10_doi_branch_redundant :
    (∀ text : String, is_doi_or_identifier text = !startsWithHttp (pyStrip text))
    ∧ is_doi_or_identifier "" = true
    ∧ is_doi_or_identifier "not a doi, not a url" = true := by
  refine ⟨fun text => ?_, by decide, by decide⟩
  unfold is_doi_or_identifier
  by_cases h : startsWithHttp (pyStrip text) <;> simp [h]

/-- C2: on an upstream status in [200,300), a PathA call with format bibtex
returns an envelope with is_json false and the raw body text as data, and a
call with any other format returns is_json true with the body parsed as
JSON as data. -/
theorem claim_C2_patha_format_shapes (url : String) (r : HttpResponse)
    (h1 : 200 ≤ r.status_code) (h2 : r.status_code < 300) :
    fetch_citation url "bibtex" (.response r)
      = { success := true, data := some (.text r.text), is_json := some false
          format_type := some "bibtex", api_url := some (citoidApiUrl "bibtex" url) }
    ∧ (∀ format_type j, format_type ≠ "bibtex" → r.jsonBody = .ok j →
        fetch_citation url format_type (.response r)
          = { success := true, data := some (.json j), is_json := some true
              format_type := some format_type
              api_url := some (citoidApiUrl format_type url) }) := by
  have hb : ¬ raisesForStatus r.status_code := by unfold raisesForStatus; omega
  constructor
  · simp [fetch_citation, hb]
  · intro ft j hft hj
    simp [fetch_citation, hb, hft, hj]

/-- Witness for C2: both format shapes at a concrete 200 response, for
format bibtex and format zotero. -/
theorem claim_C2_patha_format_shapes_witness :
    fetch_citation "https://example.com" "bibtex"
        (.response ⟨200, "@misc{x}", "OK", .error "not json"⟩)
      = { success := true, data := some (.text "@misc{x}"), is_json := some false
          format_type := some "bibtex"
          api_url := some (citoidApiUrl "bibtex" "https://example.com") }
    ∧ fetch_citation "https://example.com" "zotero"
        (.response ⟨200, "[]", "OK", .ok (.arr [])⟩)
      = { success := true, data := some (.json (.arr [])), is_json := some true
          format_type := some "zotero"
          api_url := some (citoidApiUrl "zotero" "https://example.com") } :=
  ⟨(claim_C2_patha_format_shapes "https://example.com"
      ⟨200, "@misc{x}", "OK", .error "not json"⟩ (by decide) (by decide)).1,
   (claim_C2_patha_format_shapes "https://example.com"
      ⟨200, "[]", "OK", .ok (.arr [])⟩ (by decide) (by decide)).2
      "zotero" (.arr []) (by decide) rfl⟩

/-- C3: the PathA request URL is the fixed host/path template instantiated
with the format and the percent-encoded input; the encoding leaves no
reserved character unescaped (every output character is an always-safe
character or part of a percent escape), and for the input
`https://example.com/a b` no raw space appears in the constructed URL. -/
theorem claim_C3_patha_request_url :
    (∀ url format_type : String,
       citoidApiUrl format_type url
         = "https://en.wikipedia.org/api/rest_v1/data/citation/"
             ++ format_type ++ "/" ++ pyQuote url)
    ∧ (∀ url : String, ∀ c ∈ (pyQuote url).data, quoteSafe c = true ∨ c = '%')
    ∧ ((citoidApiUrl "zotero" "https://example.com/a b").data.all
         (fun c => c != ' ')) = true := by
  refine ⟨fun url format_type => rfl, fun url => pyQuote_safe url, by decide⟩

/-- Witness for C3: the percent sign of an escape is itself in the image of
the encoder on a concrete input containing a space. -/
theorem claim_C3_patha_request_url_witness :
    quoteSafe '%' = true ∨ '%' = '%' :=
  claim_C3_patha_request_url.2.1 "a b" '%' (by decide)

/-- C4: with configuration resolved to non-empty values, a PathB call issues
its POST to base (trailing slashes stripped) plus `/search` when the input
classifies as identifier and plus `/web` when it classifies as URL, with the
unmodified input string as request body; `10.1038/nature12373` selects
search and `https://github.com/x/y` selects web. -/
theorem claim_C4_pathb_endpoint_selection (cfg : ZoteroConfig) (u k : String)
    (hres : resolveCreds cfg = (some u, some k)) (hu : u ≠ "") (hk : k ≠ "") :
    (∀ input_text net,
       fetch_zotero_citation cfg input_text net
         = zoteroRespond (zoteroEndpoint u input_text).1 (zoteroEndpoint u input_text).2
             (net ⟨(zoteroEndpoint u input_text).1, k, input_text⟩))
    ∧ (∀ input_text, (zoteroEndpoint u input_text).1
         = rstripSlash u ++ (if is_doi_or_identifier input_text then "/search" else "/web"))
    ∧ zoteroEndpoint u "10.1038/nature12373" = (rstripSlash u ++ "/search", "search")
    ∧ zoteroEndpoint u "https://github.com/x/y" = (rstripSlash u ++ "/web", "web") := by
  refine ⟨fun input_text net => fetch_zotero_config_present cfg u k hres hu hk input_text net,
    fun input_text => ?_, ?_, ?_⟩
  · unfold zoteroEndpoint
    by_cases h : is_doi_or_identifier input_text <;> simp [h]
  · have h : is_doi_or_identifier "10.1038/nature12373" = true := by decide
    simp [zoteroEndpoint, h]
  · have h : is_doi_or_identifier "https://github.com/x/y" = false := by decide
    simp [zoteroEndpoint, h]

/-- Witness for C4: concrete configuration, identifier input, and network
behaviour; the call equals the handled outcome of the POST to the search
endpoint with the input as body. -/
theorem claim_C4_pathb_endpoint_selection_witness :
    fetch_zotero_citation
        { secretsUrl := some "http://translate.local/", secretsKey := some "KEY" }
        "10.1038/nature12373" (fun _ => .timeout)
      = zoteroRespond (zoteroEndpoint "http://translate.local/" "10.1038/nature12373").1
          (zoteroEndpoint "http://translate.local/" "10.1038/nature12373").2
          ((fun _ : ZoteroRequest => RequestsOutcome.timeout)
            ⟨(zoteroEndpoint "http://translate.local/" "10.1038/nature12373").1, "KEY",
              "10.1038/nature12373"⟩) :=
  (claim_C4_pathb_endpoint_selection
      { secretsUrl := some "http://translate.local/", secretsKey := some "KEY" }
      "http://translate.local/" "KEY" rfl (by decide) (by decide)).1
    "10.1038/nature12373" (fun _ => .timeout)

theorem zoteroRespond_wellformed (endpoint ety : String) (outcome : RequestsOutcome) :
    ((zoteroRespond endpoint ety outcome).error.isSome)
      = !(zoteroRespond endpoint ety outcome).success := by
  cases outcome with
  | connectionError => rfl
  | timeout => rfl
  | otherFailure msg => rfl
  | response r =>
    by_cases hs : raisesForStatus r.status_code
    · simp [zoteroRespond, hs]
    · cases hj : r.jsonBody <;> simp [zoteroRespond, hs, hj]

/-- Counterexample to C5 as stated: status 304 lies outside [200,300), yet
raise_for_status raises only for statuses in [400,600), so PathA proceeds to
parse the body and returns a success envelope — not an HTTP-status error. -/
theorem claim_C5_counterexample_status_304 :
    fetch_citation "https://example.com" "zotero"
        (.response ⟨304, "null", "Not Modified", .ok .null⟩)
      = { success := true, data := some (.json .null), is_json := some true
          format_type := some "zotero"
          api_url := some (citoidApiUrl "zotero" "https://example.com") }
    ∧ (fetch_citation "https://example.com" "zotero"
        (.response ⟨304, "null", "Not Modified", .ok .null⟩)).success = true
    ∧ (fetch_citation "https://example.com" "zotero"
        (.response ⟨304, "null", "Not Modified", .ok .null⟩)).error = none := by
  refine ⟨?_, rfl, rfl⟩
  have hb : ¬ raisesForStatus 304 := by unfold raisesForStatus; omega
  simp [fetch_citation, hb]

/-- C5 as amended: on either path a connection failure yields the
connectivity message, a timeout yields the timeout message, and an HTTP
status in [400,600) — the statuses for which raise_for_status raises —
yields the HTTP-status message carrying the status code, with the reason
phrase on PathA and the response body on PathB; none of these messages is an
instance of the generic unexpected-error message. -/
theorem claim_C5_error_kinds (cfg : ZoteroConfig) (u k : String)
    (hres : resolveCreds cfg = (some u, some k)) (hu : u ≠ "") (hk : k ≠ "") :
    (∀ url format_type, fetch_citation url format_type .connectionError
       = { success := false
           error := some "Connection error. Please check your internet connection." })
    ∧ (∀ url format_type, fetch_citation url format_type .timeout
       = { success := false, error := some "Request timed out. Please try again." })
    ∧ (∀ url format_type r, 400 ≤ r.status_code → r.status_code < 600 →
        fetch_citation url format_type (.response r)
          = { success := false
              error := some ("HTTP error: " ++ toString r.status_code ++ " - " ++ r.reason) })
    ∧ (∀ input_text, fetch_zotero_citation cfg input_text (fun _ => .connectionError)
       = { success := false
           error := some "Connection error. Please check your internet connection." })
    ∧ (∀ input_text, fetch_zotero_citation cfg input_text (fun _ => .timeout)
       = { success := false, error := some "Request timed out. Please try again." })
    ∧ (∀ input_text r, 400 ≤ r.status_code → r.status_code < 600 →
        fetch_zotero_citation cfg input_text (fun _ => .response r)
          = { success := false
              error := some ("HTTP error: " ++ toString r.status_code ++ " - " ++ r.text) })
    ∧ (∀ m, "Connection error. Please check your internet connection."
         ≠ "An unexpected error occurred: " ++ m)
    ∧ (∀ m, "Request timed out. Please try again." ≠ "An unexpected error occurred: " ++ m)
    ∧ (∀ (code : Nat) (detail m : String),
        "HTTP error: " ++ toString code ++ " - " ++ detail
          ≠ "An unexpected error occurred: " ++ m) := by
  refine ⟨fun url ft => rfl, fun url ft => rfl, fun url ft r h1 h2 => ?_,
    fun input_text => ?_, fun input_text => ?_, fun input_text r h1 h2 => ?_,
    ne_unexpected_of_head (c := 'C') (by decide) (by decide),
    ne_unexpected_of_head (c := 'R') (by decide) (by decide),
    fun code detail m => ne_unexpected_of_head (c := 'H')
      (head_of_string_append _ _ 'H'
        (head_of_string_append _ _ 'H' (head_of_string_append _ _ 'H' (by decide))))
      (by decide) m⟩
  · have hb : raisesForStatus r.status_code := ⟨h1, h2⟩
    simp [fetch_citation, hb]
  · rw [fetch_zotero_config_present cfg u k hres hu hk]; rfl
  · rw [fetch_zotero_config_present cfg u k hres hu hk]; rfl
  · rw [fetch_zotero_config_present cfg u k hres hu hk]
    have hb : raisesForStatus r.status_code := ⟨h1, h2⟩
    simp [zoteroRespond, hb]

/-- Witness for C5 at a concrete configuration and a concrete 404 response
on each path. -/
theorem claim_C5_error_kinds_witness :
    fetch_citation "https://example.com" "zotero"
        (.response ⟨404, "not found body", "Not Found", .error "nope"⟩)
      = { success := false, error := some ("HTTP error: " ++ toString 404 ++ " - " ++ "Not Found") }
    ∧ fetch_zotero_citation
        { secretsUrl := some "http://translate.local", secretsKey := some "KEY" }
        "https://github.com/x/y"
        (fun _ => .response ⟨500, "boom", "Server Error", .error "nope"⟩)
      = { success := false, error := some ("HTTP error: " ++ toString 500 ++ " - " ++ "boom") } :=
  ⟨(claim_C5_error_kinds { secretsUrl := some "http://translate.local", secretsKey := some "KEY" }
      "http://translate.local" "KEY" rfl (by decide) (by decide)).2.2.1
      "https://example.com" "zotero" ⟨404, "not found body", "Not Found", .error "nope"⟩
      (by decide) (by decide),
   (claim_C5_error_kinds { secretsUrl := some "http://translate.local", secretsKey := some "KEY" }
      "http://translate.local" "KEY" rfl (by decide) (by decide)).2.2.2.2.2.1
      "https://github.com/x/y" ⟨500, "boom", "Server Error", .error "nope"⟩
      (by decide) (by decide)⟩

/-- C6: when either resolved credential is absent or empty, a PathB call
returns the configuration-missing envelope, and it does so for every
possible network behaviour — the outcome never consults `net`, which
formalises that no outbound request is attempted. -/
theorem claim_C6_pathb_config_missing (cfg : ZoteroConfig) (input_text : String)
    (hm : credMissing (resolveCreds cfg).1 = true ∨ credMissing (resolveCreds cfg).2 = true) :
    ∀ net, fetch_zotero_citation cfg input_text net
      = { success := false
          error := some "Zotero API credentials not configured. Please set credentials in .streamlit/secrets.toml (Cloud) or .env file (local)." } := by
  intro net
  unfold fetch_zotero_citation
  rcases hm with h | h <;> simp [h]

/-- Witness for C6: an environment with the base URL set but no API key
produces the configuration-missing envelope even though the network would
have answered 200. -/
theorem claim_C6_pathb_config_missing_witness :
    fetch_zotero_citation { envUrl := some "http://translate.local" } "10.1038/nature12373"
        (fun _ => .response ⟨200, "[]", "OK", .ok (.arr [])⟩)
      = { success := false
          error := some "Zotero API credentials not configured. Please set credentials in .streamlit/secrets.toml (Cloud) or .env file (local)." } :=
  claim_C6_pathb_config_missing { envUrl := some "http://translate.local" }
    "10.1038/nature12373" (Or.inr (by decide))
    (fun _ => .response ⟨200, "[]", "OK", .ok (.arr [])⟩)

/-- C7: both fetchers always return an envelope whose `error` field is
present exactly when `success` is false; totality of the two Lean functions
over every input, format, configuration, and upstream outcome embodies that
neither call raises to its caller. -/
theorem claim_C7_envelope_wellformed :
    (∀ url format_type outcome,
       ((fetch_citation url format_type outcome).error.isSome)
         = !(fetch_citation url format_type outcome).success)
    ∧ (∀ cfg input_text net,
       ((fetch_zotero_citation cfg input_text net).error.isSome)
         = !(fetch_zotero_citation cfg input_text net).success) := by
  constructor
  · intro url ft outcome
    cases outcome with
    | connectionError => rfl
    | timeout => rfl
    | otherFailure msg => rfl
    | response r =>
      by_cases hs : raisesForStatus r.status_code
      · simp [fetch_citation, hs]
      · by_cases hf : ft = "bibtex"
        · simp [fetch_citation, hs, hf]
        · cases hj : r.jsonBody <;> simp [fetch_citation, hs, hf, hj]
  · intro cfg input_text net
    by_cases hm : (credMissing (resolveCreds cfg).1 || credMissing (resolveCreds cfg).2) = true
    · simp [fetch_zotero_citation, hm]
    · simp only [Bool.not_eq_true] at hm
      simp only [fetch_zotero_citation, hm, Bool.false_eq_true, if_false]
      exact zoteroRespond_wellformed _ _ _

/-- C8: a PathA call with a non-bibtex format, a status in [200,300), and a
body that fails to parse as JSON returns a failed envelope carrying the
generic unexpected-error message around the decoder's message. -/
theorem claim_C8_patha_decode_failure (url format_type : String) (r : HttpResponse)
    (msg : String) (hft : format_type ≠ "bibtex")
    (h1 : 200 ≤ r.status_code) (h2 : r.status_code < 300)
    (hj : r.jsonBody = .error msg) :
    fetch_citation url format_type (.response r)
      = { success := false, error := some ("An unexpected error occurred: " ++ msg) } := by
  have hb : ¬ raisesForStatus r.status_code := by unfold raisesForStatus; omega
  simp [fetch_citation, hb, hft, hj]

/-- Witness for C8: a concrete 200 HTML body that is not JSON. -/
theorem claim_C8_patha_decode_failure_witness :
    fetch_citation "https://example.com" "zotero"
        (.response ⟨200, "<html></html>", "OK",
          .error "Expecting value: line 1 column 1 (char 0)"⟩)
      = { success := false
          error := some ("An unexpected error occurred: "
            ++ "Expecting value: line 1 column 1 (char 0)") } :=
  claim_C8_patha_decode_failure "https://example.com" "zotero"
    ⟨200, "<html></html>", "OK", .error "Expecting value: line 1 column 1 (char 0)"⟩
    "Expecting value: line 1 column 1 (char 0)" (by decide) (by decide) (by decide) rfl

/-- C9: both fetchers are deterministic functions of their arguments, the
resolved configuration, and the upstream outcome — two calls with equal
arguments return structurally identical envelopes, there being no other
state for a call to read or mutate in the embedding. -/
theorem claim_C9_deterministic :
    (∀ url1 url2 ft1 ft2 o1 o2, url1 = url2 → ft1 = ft2 → o1 = o2 →
       fetch_citation url1 ft1 o1 = fetch_citation url2 ft2 o2)
    ∧ (∀ cfg1 cfg2 t1 t2 net1 net2, cfg1 = cfg2 → t1 = t2 → net1 = net2 →
       fetch_zotero_citation cfg1 t1 net1 = fetch_zotero_citation cfg2 t2 net2) := by
  constructor
  · intro url1 url2 ft1 ft2 o1 o2 h1 h2 h3
    rw [h1, h2, h3]
  · intro cfg1 cfg2 t1 t2 net1 net2 h1 h2 h3
    rw [h1, h2, h3]

/-- Witness for C9: a repeated concrete call on each path. -/
theorem claim_C9_deterministic_witness :
    fetch_citation "https://example.com" "zotero" .timeout
      = fetch_citation "https://example.com" "zotero" .timeout
    ∧ fetch_zotero_citation { envUrl := some "http://x", envKey := some "K" } "10.1038/nature12373"
        (fun _ => .timeout)
      = fetch_zotero_citation { envUrl := some "http://x", envKey := some "K" } "10.1038/nature12373"
        (fun _ => .timeout) :=
  ⟨claim_C9_deterministic.1 "https://example.com" "https://example.com" "zotero" "zotero"
      .timeout .timeout rfl rfl rfl,
   claim_C9_deterministic.2 { envUrl := some "http://x", envKey := some "K" }
      { envUrl := some "http://x", envKey := some "K" } "10.1038/nature12373" "10.1038/nature12373"
      (fun _ => .timeout) (fun _ => .timeout) rfl rfl rfl⟩

end CitoidDemo
